import Mathlib

/-!
Verification of the mediapipe-hand-tracking frame-processing and recording
pipeline against its specification.

The development shallowly embeds the relevant TypeScript source:

* `WebcamPreview.tsx` — the recording coordinator (`startRecording`,
  `stopRecording`) and the per-frame driver guard (`handleFrameProcessed`);
* `CameraSettings` (the settings panel component) — the `numHands`
  configuration guard, the capability-guarded camera-setting change
  handlers, and `generateFrameRates`.

Asynchronous code is modelled as pure functions from an environment (the
oracle of asynchronous results: server answers, encoder outcomes) and a
state to a new state together with an ordered event trace and an optional
thrown error.  Awaited calls appear in the trace in the order the code
awaits them; a promise the code fires without awaiting (the remote
`setRecording` command) is entered in the trace at the point it is issued,
with its resolution event linearised immediately after its issue event
(no claim below depends on where the detached resolution lands relative
to later awaited events).
-/

/-- Events observable during a run of `startRecording` / `stopRecording`
of `WebcamPreview.tsx`.  Chunks are opaque and modelled as naturals. -/
inductive Ev where
  | awaitConnectionSettings
  | awaitIsRecording
  | toastWarning
  | toastConflict
  | callOnStartRecordingFailed
  | issueRemoteStart
  | remoteStartSucceeded
  | toastRemoteStartFailed
  | awaitLocalEncoderStart
  | setRecordingInProgressTrue
  | setRecordingOnServerFalse
  | issueRemoteStop
  | toastRemoteStopFailed
  | awaitLocalEncoderStop
  | setRecordingInProgressFalse
  | awaitOnRecordingStop (chunks : List Nat) (startTime : Nat)
  | clearChunks
deriving DecidableEq, Repr

/-- Oracle of asynchronous results consumed by one run of the coordinator:
whether `getConnectionSettings` returns a server connection, the answer of
the remote `isRecording` query (`none` = the query failed / undefined),
the outcomes of the remote `setRecording(true)` / `setRecording(false)`
commands, and whether the local encoder start succeeds (its error is
reported through the error callback passed to it). -/
structure Env where
  connectionSettings : Bool
  isRecordingResult : Option Bool
  setRecordingStartOk : Bool
  setRecordingStopOk : Bool
  localStartOk : Bool
deriving DecidableEq, Repr

/-- The React state of `WebcamPreview` relevant to the recording lifecycle:
`recordingInProgress` (true from startRecording to stopRecording) and
`recordingOnServer` (initially undefined, hence `Option`). -/
structure RecState where
  recordingInProgress : Bool
  recordingOnServer : Option Bool
deriving DecidableEq, Repr

/-- `VideoProcessor` state visible to the coordinator.

Modelled from the spec: the `VideoProcessor` class itself is not part of
the sources at hand, only its caller; per the spec, `stopRecording()`
finalizes encoding, flushes all buffered EncodedChunks and resolves only
after the flush completes, so `recordedChunks`, `frameCount` and
`recordingStartTime` are readable immediately after. -/
structure VPState where
  recordedChunks : List Nat
  frameCount : Nat
  recordingStartTime : Nat
  flushed : Bool
deriving DecidableEq, Repr

/-- Modelled from the spec: awaiting `VideoProcessor.stopRecording`
completes the flush; the chunk buffer and counters are unchanged by the
flush and readable immediately after it. -/
def vpStopRecording (vp : VPState) : VPState :=
  { vp with flushed := true }

/-- The tail of every non-conflict start: `await
videoProcessorRef.current.startRecording(directoryHandle, undefined, errorCb)`
(the error callback invokes `onStartRecordingFailed`), then
`setRecordingInProgress(true)` (WebcamPreview.tsx lines 154-163). -/
def localStartEvents (env : Env) : List Ev :=
  [Ev.awaitLocalEncoderStart] ++
    (if env.localStartOk then [] else [Ev.callOnStartRecordingFailed]) ++
    [Ev.setRecordingInProgressTrue]

/-- Embedding of `startRecording` (WebcamPreview.tsx lines 102-164).
Returns the new state, the ordered event trace, and the thrown error, if
any.  `hasDirectory` is whether `directoryHandle` is defined. -/
def startRecording (env : Env) (hasDirectory : Bool) (s : RecState) :
    RecState × List Ev × Option String :=
  if s.recordingInProgress then (s, [], some "Recording already in progress")
  else if hasDirectory = false then (s, [], some "No directory selected")
  else if env.connectionSettings then
    match env.isRecordingResult with
    | none =>
        -- Server connected but the status query failed: warn, drop the
        -- connection settings and start only on the client side.
        ({ s with recordingInProgress := true },
         [Ev.awaitConnectionSettings, Ev.awaitIsRecording, Ev.toastWarning] ++
           localStartEvents env,
         none)
    | some true =>
        -- Recording already in progress on the server: do not start.
        (s,
         [Ev.awaitConnectionSettings, Ev.awaitIsRecording, Ev.toastConflict,
          Ev.callOnStartRecordingFailed],
         none)
    | some false =>
        -- Status synced with the server: fire setRecording(true) without
        -- awaiting it; its then-branch sets recordingOnServer on success,
        -- its catch-branch toasts on failure.
        let s1 := if env.setRecordingStartOk
          then { s with recordingOnServer := some true } else s
        let remoteEvs := if env.setRecordingStartOk
          then [Ev.issueRemoteStart, Ev.remoteStartSucceeded]
          else [Ev.issueRemoteStart, Ev.toastRemoteStartFailed]
        ({ s1 with recordingInProgress := true },
         [Ev.awaitConnectionSettings, Ev.awaitIsRecording] ++ remoteEvs ++
           localStartEvents env,
         none)
  else
    ({ s with recordingInProgress := true },
     [Ev.awaitConnectionSettings] ++ localStartEvents env,
     none)

/-- Embedding of `stopRecording` (WebcamPreview.tsx lines 170-200).
Returns the new component state, the new video-processor state, the
ordered event trace, and the thrown error, if any. -/
def stopRecording (env : Env) (s : RecState) (vp : VPState) :
    RecState × VPState × List Ev × Option String :=
  if s.recordingInProgress = false then
    (s, vp, [], some "Recording not in progress")
  else
    -- if (recordingOnServer): setRecordingOnServer(false) and fire
    -- setRecording(false) without awaiting; only its failure toasts.
    let onServer := s.recordingOnServer = some true
    let s1 := if onServer then { s with recordingOnServer := some false } else s
    let remoteEvs := if onServer then
        [Ev.setRecordingOnServerFalse, Ev.issueRemoteStop] ++
          (if env.setRecordingStopOk then [] else [Ev.toastRemoteStopFailed])
      else []
    -- await vp.stopRecording(); setRecordingInProgress(false);
    -- await onRecordingStop(vp.recordedChunks, vp.recordingStartTime);
    -- vp.recordedChunks.length = 0.
    let vp1 := vpStopRecording vp
    ({ s1 with recordingInProgress := false },
     { vp1 with recordedChunks := [] },
     remoteEvs ++
       [Ev.awaitLocalEncoderStop, Ev.setRecordingInProgressFalse,
        Ev.awaitOnRecordingStop vp1.recordedChunks vp1.recordingStartTime,
        Ev.clearChunks],
     none)

/-! ## Inference scheduler and per-frame driver guard -/

/-- Scheduler-side state of the `HandLandmarker` as read by the driver.
`live` and `video` count the outstanding single-frame inference calls and
the outstanding whole-clip bulk inference calls; per the spec,
`processingFrame` is true exactly while a single-frame inference call is
outstanding and `processingVideo` exactly while a bulk call is. -/
structure SchedState where
  initialized : Bool
  live : Nat
  video : Nat
deriving DecidableEq, Repr

/-- `processingFrame`: an inference call is currently outstanding. -/
def processingFrame (s : SchedState) : Bool := s.live != 0

/-- `processingVideo`: a bulk (whole-clip) inference call is outstanding. -/
def processingVideo (s : SchedState) : Bool := s.video != 0

/-- The guard of `handleFrameProcessed` (WebcamPreview.tsx lines 87-92):
the frame is handed to `processFrame` only if the hand landmarker ref is
set, it is initialized, no previous frame is still being processed, and
no video is being processed. -/
def frameGuard (handLandmarker : Option SchedState) : Bool :=
  match handLandmarker with
  | none => false
  | some s => s.initialized && !processingFrame s && !processingVideo s

/-- Modelled from the spec: the bulk reprocessing entry point is not among
the sources at hand; the spec has the scheduler enforce at most one
in-flight whole-clip batch inference call, mutually exclusive with live
single-frame inference, so its entry is guarded like the live one. -/
def videoGuard (s : SchedState) : Bool :=
  s.initialized && !processingFrame s && !processingVideo s

/-- Labels of scheduler transitions. -/
inductive Lab where
  | frameCall
  | frameDrop
  | frameDone
  | videoCall
  | videoDone
  | initDone
deriving DecidableEq, Repr

/-- One step of the driver/scheduler system.  A frame arrival either
passes the `handleFrameProcessed` guard and starts an inference call
(`frameCall`) or fails it and is dropped with no state change and no
queueing (`frameDrop`); outstanding calls complete (`frameDone`,
`videoDone`); bulk reprocessing starts under its guard (`videoCall`);
engine initialization completes once (`initDone`). -/
inductive SchedStep : SchedState → Lab → SchedState → Prop where
  | frameCall (s : SchedState) (h : frameGuard (some s) = true) :
      SchedStep s Lab.frameCall { s with live := s.live + 1 }
  | frameDrop (s : SchedState) (h : frameGuard (some s) = false) :
      SchedStep s Lab.frameDrop s
  | frameDone (s : SchedState) (h : s.live ≠ 0) :
      SchedStep s Lab.frameDone { s with live := s.live - 1 }
  | videoCall (s : SchedState) (h : videoGuard s = true) :
      SchedStep s Lab.videoCall { s with video := s.video + 1 }
  | videoDone (s : SchedState) (h : s.video ≠ 0) :
      SchedStep s Lab.videoDone { s with video := s.video - 1 }
  | initDone (s : SchedState) :
      SchedStep s Lab.initDone { s with initialized := true }

/-- The initial scheduler state: engine not yet initialized, nothing
outstanding. -/
def SchedState.start : SchedState := ⟨false, 0, 0⟩

/-- States reachable by the driver/scheduler system from the initial
state. -/
inductive SchedReachable : SchedState → Prop where
  | start : SchedReachable SchedState.start
  | step (s s2 : SchedState) (l : Lab) (h : SchedReachable s)
      (hs : SchedStep s l s2) : SchedReachable s2

/-! ## CameraSettings: numHands guard -/

/-- The `HandLandmarker` fields read by the `CameraSettings` component:
whether a `numHands` reconfiguration is currently in flight, and whether
`waitForInitialization` resolves (`initOk` false = it rejects). -/
structure HandLandmarkerApi where
  settingNumHands : Bool
  initOk : Bool
deriving DecidableEq, Repr

/-- Embedding of `handleTrackTwoHandsChange` (CameraSettings lines
148-152): returns the new `trackTwoHands` state.  The handler returns
without changing state when no hand landmarker is set or a numHands
change is in flight. -/
def handleTrackTwoHandsChange (handLandmarker : Option HandLandmarkerApi)
    (cur newVal : Bool) : Bool :=
  match handLandmarker with
  | none => cur
  | some h => if h.settingNumHands then cur else newVal

/-- Embedding of the numHands `useEffect` (CameraSettings lines 125-141):
returns the `setNumHands` call issued, if any (`some n` stands for
`setNumHands(n)`).  `h.settingNumHands` is the value of the flag at the
moment the then-continuation runs, i.e. after `waitForInitialization`
has resolved; when it is set the effect returns without calling
`setNumHands`. -/
def numHandsEffect (handLandmarker : Option HandLandmarkerApi)
    (trackTwoHands : Bool) : Option Nat :=
  match handLandmarker with
  | none => none
  | some h =>
    if h.initOk then
      if h.settingNumHands then none
      else some (if trackTwoHands then 2 else 1)
    else none

/-! ## CameraSettings: capability-guarded setting handlers -/

/-! The capability keys of `CameraCapabilities.ts`. -/

namespace CameraCapabilities

def ExposureTime : String := "exposureTime"

def ExposureCompensation : String := "exposureCompensation"

def FocusDistance : String := "focusDistance"

def WhiteBalanceTemperature : String := "colorTemperature"

def Brightness : String := "brightness"

def Contrast : String := "contrast"

def Saturation : String := "saturation"

def Sharpness : String := "sharpness"

end CameraCapabilities

/-- A media video track as seen by the handlers: its reported
capability keys and the log of advanced constraints applied to it. -/
structure VideoTrack where
  capabilities : List String
  applied : List (String × Rat)
deriving DecidableEq, Repr

/-- The numeric-slider state of the `CameraSettings` component together
with the optional video track it controls. -/
structure CamState where
  exposureTime : Rat
  exposureCompensation : Rat
  focusDistance : Rat
  whiteBalance : Rat
  brightness : Rat
  contrast : Rat
  saturation : Rat
  sharpness : Rat
  videoTrack : Option VideoTrack
deriving DecidableEq, Repr

/-- The shared tail of every value-change handler: read the capabilities
of the track, if any (`videoTrack?.getCapabilities()`), and apply the
advanced constraint only when the capability key is present in them. -/
def applyAdvanced (videoTrack : Option VideoTrack) (key : String) (v : Rat) :
    Option VideoTrack :=
  match videoTrack with
  | none => none
  | some t =>
    if key ∈ t.capabilities then
      some { t with applied := t.applied ++ [(key, v)] }
    else some t

/-- Embedding of `handleExposureTimeChange` (CameraSettings lines 168-176). -/
def handleExposureTimeChange (s : CamState) (v : Rat) : CamState :=
  { s with exposureTime := v,
           videoTrack := applyAdvanced s.videoTrack CameraCapabilities.ExposureTime v }

/-- Embedding of `handleExposureCompensationChange` (lines 178-186). -/
def handleExposureCompensationChange (s : CamState) (v : Rat) : CamState :=
  { s with exposureCompensation := v,
           videoTrack := applyAdvanced s.videoTrack CameraCapabilities.ExposureCompensation v }

/-- Embedding of `handleFocusDistanceChange` (lines 201-209). -/
def handleFocusDistanceChange (s : CamState) (v : Rat) : CamState :=
  { s with focusDistance := v,
           videoTrack := applyAdvanced s.videoTrack CameraCapabilities.FocusDistance v }

/-- Embedding of `handleWhiteBalanceChange` (lines 224-232). -/
def handleWhiteBalanceChange (s : CamState) (v : Rat) : CamState :=
  { s with whiteBalance := v,
           videoTrack := applyAdvanced s.videoTrack CameraCapabilities.WhiteBalanceTemperature v }

/-- Embedding of `handleBrightnessChange` (lines 252-260). -/
def handleBrightnessChange (s : CamState) (v : Rat) : CamState :=
  { s with brightness := v,
           videoTrack := applyAdvanced s.videoTrack CameraCapabilities.Brightness v }

/-- Embedding of `handleContrastChange` (lines 262-270). -/
def handleContrastChange (s : CamState) (v : Rat) : CamState :=
  { s with contrast := v,
           videoTrack := applyAdvanced s.videoTrack CameraCapabilities.Contrast v }

/-- Embedding of `handleSaturationChange` (lines 272-280). -/
def handleSaturationChange (s : CamState) (v : Rat) : CamState :=
  { s with saturation := v,
           videoTrack := applyAdvanced s.videoTrack CameraCapabilities.Saturation v }

/-- Embedding of `handleSharpnessChange` (lines 282-290). -/
def handleSharpnessChange (s : CamState) (v : Rat) : CamState :=
  { s with sharpness := v,
           videoTrack := applyAdvanced s.videoTrack CameraCapabilities.Sharpness v }

/-! ## CameraSettings: generateFrameRates -/

/-- The while loop of `generateFrameRates` (CameraSettings lines
363-369): starting from the current last element of the array, while it
is below `maxFrameRate`, push `min(last + 30, maxFrameRate)`; the
returned list is the sequence of pushed elements. -/
def genLoop (maxFrameRate last : Rat) : List Rat :=
  if h : last < maxFrameRate then
    let next := min (last + 30) maxFrameRate
    next :: genLoop maxFrameRate next
  else []
termination_by (⌈maxFrameRate - last⌉).toNat
decreasing_by
  rcases le_total maxFrameRate (last + 30) with hle | hle
  · rw [min_eq_right hle]
    have h1 : (0:Int) < ⌈maxFrameRate - last⌉ := Int.ceil_pos.mpr (by linarith)
    simp only [sub_self, Int.ceil_zero, Int.toNat_zero]
    omega
  · rw [min_eq_left hle]
    have h2 : maxFrameRate - (last + 30) = (maxFrameRate - last) - ((30:Int):Rat) := by
      push_cast; ring
    rw [h2, Int.ceil_sub_int]
    have h3 : (0:Int) < ⌈maxFrameRate - last⌉ := Int.ceil_pos.mpr (by linarith)
    omega

/-- Embedding of `generateFrameRates` (CameraSettings lines 363-369): the
array starts as `[30]` and the while loop appends to it. -/
def generateFrameRates (maxFrameRate : Rat) : List Rat :=
  30 :: genLoop maxFrameRate 30

theorem genLoop_of_not_lt (maxFrameRate last : Rat) (h : ¬ last < maxFrameRate) :
    genLoop maxFrameRate last = [] := by
  rw [genLoop]
  simp [h]

theorem genLoop_of_lt (maxFrameRate last : Rat) (h : last < maxFrameRate) :
    genLoop maxFrameRate last =
      min (last + 30) maxFrameRate :: genLoop maxFrameRate (min (last + 30) maxFrameRate) := by
  rw [genLoop]
  simp [h]

/-- Each loop iteration pushes a strictly larger element that exceeds its
predecessor by at most 30. -/
theorem genLoop_chain (maxFrameRate last : Rat) :
    List.Chain (fun a b => a < b ∧ b ≤ a + 30) last (genLoop maxFrameRate last) := by
  induction last using genLoop.induct maxFrameRate with
  | case1 x h next ih =>
    rw [genLoop_of_lt _ _ h]
    refine List.Chain.cons ⟨lt_min (by linarith) h, min_le_left _ _⟩ ih
  | case2 x h =>
    rw [genLoop_of_not_lt _ _ h]
    exact List.Chain.nil

/-- Every element the loop pushes is at most `maxFrameRate`. -/
theorem genLoop_mem_le (maxFrameRate last : Rat) :
    ∀ x ∈ genLoop maxFrameRate last, x ≤ maxFrameRate := by
  induction last using genLoop.induct maxFrameRate with
  | case1 x h next ih =>
    rw [genLoop_of_lt _ _ h]
    intro y hy
    rcases List.mem_cons.mp hy with hy | hy
    · exact hy ▸ min_le_right _ _
    · exact ih y hy
  | case2 x h =>
    rw [genLoop_of_not_lt _ _ h]
    intro y hy
    exact absurd hy (List.not_mem_nil y)

/-- When the loop runs at all, its final pushed element is exactly
`maxFrameRate`. -/
theorem genLoop_getLast (maxFrameRate last : Rat) (h : last < maxFrameRate) :
    (genLoop maxFrameRate last).getLast? = some maxFrameRate := by
  induction last using genLoop.induct maxFrameRate with
  | case1 x hx next ih =>
    rw [genLoop_of_lt _ _ hx]
    by_cases hn : min (x + 30) maxFrameRate < maxFrameRate
    · rw [genLoop_of_lt _ _ hn, List.getLast?_cons_cons, ← genLoop_of_lt _ _ hn]
      exact ih hn
    · have heq : min (x + 30) maxFrameRate = maxFrameRate := by
        rcases lt_or_eq_of_le (min_le_right (x + 30) maxFrameRate) with h3 | h3
        · exact absurd h3 hn
        · exact h3
      rw [heq, genLoop_of_not_lt _ _ (lt_irrefl maxFrameRate)]
      rfl
  | case2 x hx =>
    exact absurd h hx

/-! ## Claim theorems: recording coordinator -/

/-- C5: Re-entrant lifecycle calls are rejected as errors, not silently
ignored: whenever `recordingInProgress` is true, `startRecording` throws
"Recording already in progress" without changing any state, and whenever
`recordingInProgress` is false, `stopRecording` throws "Recording not in
progress" without changing any state. -/
theorem C5_reentrancy_rejected (env : Env) (hasDirectory : Bool) (s : RecState)
    (vp : VPState) :
    (s.recordingInProgress = true →
      startRecording env hasDirectory s =
        (s, [], some "Recording already in progress")) ∧
    (s.recordingInProgress = false →
      stopRecording env s vp = (s, vp, [], some "Recording not in progress")) := by
  constructor
  · intro h
    simp [startRecording, h]
  · intro h
    simp [stopRecording, h]

/-- C5 witness: both re-entrancy rejections at concrete states. -/
theorem C5_reentrancy_rejected_witness :
    (startRecording ⟨true, some false, true, true, true⟩ true ⟨true, none⟩ =
      (⟨true, none⟩, [], some "Recording already in progress")) ∧
    (stopRecording ⟨true, some false, true, true, true⟩ ⟨false, none⟩ ⟨[1], 1, 0, false⟩ =
      (⟨false, none⟩, ⟨[1], 1, 0, false⟩, [], some "Recording not in progress")) :=
  ⟨(C5_reentrancy_rejected ⟨true, some false, true, true, true⟩ true ⟨true, none⟩
      ⟨[1], 1, 0, false⟩).1 rfl,
   (C5_reentrancy_rejected ⟨true, some false, true, true, true⟩ true ⟨false, none⟩
      ⟨[1], 1, 0, false⟩).2 rfl⟩

/-- C2: When the remote server reports a recording already in progress,
`startRecording` aborts the entire start: the run ends with the conflict
toast and the `onStartRecordingFailed` callback, the local encoder start is
never awaited, the remote start command is never issued, the
recording-in-progress flag stays false, and no exception is thrown. -/
theorem C2_conflict_aborts_start (env : Env) (s : RecState)
    (hidle : s.recordingInProgress = false)
    (hconn : env.connectionSettings = true)
    (hrec : env.isRecordingResult = some true) :
    startRecording env true s =
      (s, [Ev.awaitConnectionSettings, Ev.awaitIsRecording, Ev.toastConflict,
           Ev.callOnStartRecordingFailed], none) ∧
    Ev.awaitLocalEncoderStart ∉ (startRecording env true s).2.1 ∧
    Ev.issueRemoteStart ∉ (startRecording env true s).2.1 ∧
    (startRecording env true s).1.recordingInProgress = false ∧
    (startRecording env true s).1 = s ∧
    Ev.callOnStartRecordingFailed ∈ (startRecording env true s).2.1 := by
  have h : startRecording env true s =
      (s, [Ev.awaitConnectionSettings, Ev.awaitIsRecording, Ev.toastConflict,
           Ev.callOnStartRecordingFailed], none) := by
    simp [startRecording, hidle, hconn, hrec]
  refine ⟨h, ?_, ?_, ?_, ?_, ?_⟩ <;> rw [h] <;> simp [hidle]

/-- C2 witness: the conflict abort at a concrete environment and state. -/
theorem C2_conflict_aborts_start_witness :
    startRecording ⟨true, some true, true, true, true⟩ true ⟨false, none⟩ =
      (⟨false, none⟩,
       [Ev.awaitConnectionSettings, Ev.awaitIsRecording, Ev.toastConflict,
        Ev.callOnStartRecordingFailed], none) ∧
    Ev.awaitLocalEncoderStart ∉
      (startRecording ⟨true, some true, true, true, true⟩ true ⟨false, none⟩).2.1 ∧
    Ev.issueRemoteStart ∉
      (startRecording ⟨true, some true, true, true, true⟩ true ⟨false, none⟩).2.1 ∧
    (startRecording ⟨true, some true, true, true, true⟩ true ⟨false, none⟩).1.recordingInProgress
      = false ∧
    (startRecording ⟨true, some true, true, true, true⟩ true ⟨false, none⟩).1 = ⟨false, none⟩ ∧
    Ev.callOnStartRecordingFailed ∈
      (startRecording ⟨true, some true, true, true, true⟩ true ⟨false, none⟩).2.1 :=
  C2_conflict_aborts_start ⟨true, some true, true, true, true⟩ ⟨false, none⟩ rfl rfl rfl

/-- C3: A failure of the remote `setRecording` command leaves the local
session state unaffected.  (i) A failed remote start still lets local
recording begin: the local encoder start is awaited and
`recordingInProgress` becomes true while `recordingOnServer` is left
unchanged.  (ii) In every start run, `recordingOnServer` can only become
true through a confirmed success response of the remote start command.
(iii) A failed remote stop still lets the local encoder stop be awaited
and `recordingInProgress` become false. -/
theorem C3_remote_failure_isolation (env : Env) (s : RecState) (vp : VPState) :
    (s.recordingInProgress = false → env.connectionSettings = true →
     env.isRecordingResult = some false → env.setRecordingStartOk = false →
      (startRecording env true s).1.recordingInProgress = true ∧
      (startRecording env true s).1.recordingOnServer = s.recordingOnServer ∧
      Ev.awaitLocalEncoderStart ∈ (startRecording env true s).2.1) ∧
    (∀ hasDirectory,
      (startRecording env hasDirectory s).1.recordingOnServer = some true →
      s.recordingOnServer = some true ∨ env.setRecordingStartOk = true) ∧
    (s.recordingInProgress = true → env.setRecordingStopOk = false →
      Ev.awaitLocalEncoderStop ∈ (stopRecording env s vp).2.2.1 ∧
      (stopRecording env s vp).1.recordingInProgress = false) := by
  refine ⟨?_, ?_, ?_⟩
  · intro h1 h2 h3 h4
    simp [startRecording, localStartEvents, h1, h2, h3, h4]
  · intro hasDirectory h
    by_cases hok : env.setRecordingStartOk = true
    · exact Or.inr hok
    · left
      rcases hip : s.recordingInProgress with _ | _ <;>
        rcases hd : hasDirectory with _ | _ <;>
          rcases hc : env.connectionSettings with _ | _ <;>
            rcases hr : env.isRecordingResult with _ | b <;>
              (try rcases b with _ | _) <;>
        simp_all [startRecording, localStartEvents]
  · intro h1 h2
    by_cases hos : s.recordingOnServer = some true <;>
      simp [stopRecording, h1, h2, hos]

/-- C3 witness: remote start failure and remote stop failure at concrete
inputs leave the local transitions intact. -/
theorem C3_remote_failure_isolation_witness :
    ((startRecording ⟨true, some false, false, false, true⟩ true ⟨false, none⟩).1.recordingInProgress
        = true ∧
      (startRecording ⟨true, some false, false, false, true⟩ true
        ⟨false, none⟩).1.recordingOnServer = (⟨false, none⟩ : RecState).recordingOnServer ∧
      Ev.awaitLocalEncoderStart ∈
        (startRecording ⟨true, some false, false, false, true⟩ true ⟨false, none⟩).2.1) ∧
    (Ev.awaitLocalEncoderStop ∈
        (stopRecording ⟨true, some false, false, false, true⟩ ⟨true, some true⟩
          ⟨[1], 1, 0, false⟩).2.2.1 ∧
      (stopRecording ⟨true, some false, false, false, true⟩ ⟨true, some true⟩
          ⟨[1], 1, 0, false⟩).1.recordingInProgress = false) :=
  ⟨(C3_remote_failure_isolation ⟨true, some false, false, false, true⟩ ⟨false, none⟩
      ⟨[1], 1, 0, false⟩).1 rfl rfl rfl rfl,
   (C3_remote_failure_isolation ⟨true, some false, false, false, true⟩ ⟨true, some true⟩
      ⟨[1], 1, 0, false⟩).2.2 rfl rfl⟩

/-- C6: When a server connection is configured but the remote
recording-status query fails, `startRecording` proceeds local-only: the
warning toast is shown, local recording starts normally
(`recordingInProgress` becomes true), no remote start command is issued,
`recordingOnServer` is left unchanged, no error is surfaced through
`onStartRecordingFailed`, and no exception is thrown. -/
theorem C6_query_failure_local_only (env : Env) (s : RecState)
    (hidle : s.recordingInProgress = false)
    (hconn : env.connectionSettings = true)
    (hq : env.isRecordingResult = none)
    (hlocal : env.localStartOk = true) :
    startRecording env true s =
      ({ s with recordingInProgress := true },
       [Ev.awaitConnectionSettings, Ev.awaitIsRecording, Ev.toastWarning,
        Ev.awaitLocalEncoderStart, Ev.setRecordingInProgressTrue], none) ∧
    Ev.issueRemoteStart ∉ (startRecording env true s).2.1 ∧
    (startRecording env true s).1.recordingOnServer = s.recordingOnServer ∧
    Ev.callOnStartRecordingFailed ∉ (startRecording env true s).2.1 ∧
    Ev.toastWarning ∈ (startRecording env true s).2.1 ∧
    (startRecording env true s).2.2 = none := by
  have h : startRecording env true s =
      ({ s with recordingInProgress := true },
       [Ev.awaitConnectionSettings, Ev.awaitIsRecording, Ev.toastWarning,
        Ev.awaitLocalEncoderStart, Ev.setRecordingInProgressTrue], none) := by
    simp [startRecording, localStartEvents, hidle, hconn, hq, hlocal]
  refine ⟨h, ?_, ?_, ?_, ?_, ?_⟩ <;> rw [h] <;> simp

/-- C6 witness: the local-only degradation at a concrete environment. -/
theorem C6_query_failure_local_only_witness :
    startRecording ⟨true, none, true, true, true⟩ true ⟨false, some false⟩ =
      ({ recordingInProgress := true, recordingOnServer := some false },
       [Ev.awaitConnectionSettings, Ev.awaitIsRecording, Ev.toastWarning,
        Ev.awaitLocalEncoderStart, Ev.setRecordingInProgressTrue], none) ∧
    Ev.issueRemoteStart ∉
      (startRecording ⟨true, none, true, true, true⟩ true ⟨false, some false⟩).2.1 ∧
    (startRecording ⟨true, none, true, true, true⟩ true ⟨false, some false⟩).1.recordingOnServer
      = (⟨false, some false⟩ : RecState).recordingOnServer ∧
    Ev.callOnStartRecordingFailed ∉
      (startRecording ⟨true, none, true, true, true⟩ true ⟨false, some false⟩).2.1 ∧
    Ev.toastWarning ∈
      (startRecording ⟨true, none, true, true, true⟩ true ⟨false, some false⟩).2.1 ∧
    (startRecording ⟨true, none, true, true, true⟩ true ⟨false, some false⟩).2.2 = none :=
  C6_query_failure_local_only ⟨true, none, true, true, true⟩ ⟨false, some false⟩ rfl rfl rfl rfl

/-- The property claimed of `startRecording`: the local encoder start is
not delayed by (does not await) the remote recording-status query, i.e.
whenever both the status-query await and the local encoder start occur in
the run's trace, the local encoder start comes first. -/
def localStartNotDelayedByQuery (tr : List Ev) : Prop :=
  Ev.awaitIsRecording ∈ tr → Ev.awaitLocalEncoderStart ∈ tr →
    tr.indexOf Ev.awaitLocalEncoderStart < tr.indexOf Ev.awaitIsRecording

/-- C7 counterexample: with a configured server connection that answers
the status query with false, the run of `startRecording` awaits the
remote status query strictly before starting the local encoder, so the
claimed non-blocking ordering is false on this run. -/
theorem C7_counterexample :
    ¬ localStartNotDelayedByQuery
        (startRecording ⟨true, some false, true, true, true⟩ true ⟨false, none⟩).2.1 := by
  intro hcl
  exact absurd (hcl (by decide) (by decide)) (by decide)

/-- C7 amended: during start with a configured server connection, the
remote recording-status query is awaited before the local encoder is
started: the query await always occurs, and whenever the local encoder
start occurs it comes strictly after the query await in the trace. -/
theorem C7_query_awaited_before_local_start (env : Env) (s : RecState)
    (hconn : env.connectionSettings = true)
    (hidle : s.recordingInProgress = false) :
    Ev.awaitIsRecording ∈ (startRecording env true s).2.1 ∧
    (Ev.awaitLocalEncoderStart ∈ (startRecording env true s).2.1 →
      (startRecording env true s).2.1.indexOf Ev.awaitIsRecording <
        (startRecording env true s).2.1.indexOf Ev.awaitLocalEncoderStart) := by
  rcases env with ⟨cs, ir, so, sp, lo⟩
  simp only at hconn
  subst hconn
  rcases ir with _ | b <;> (try rcases b with _ | _) <;> rcases so with _ | _ <;>
    rcases lo with _ | _ <;>
    simp [startRecording, localStartEvents, hidle, List.indexOf] <;> decide

/-- C7 witness: the amended ordering at a concrete environment. -/
theorem C7_query_awaited_before_local_start_witness :
    Ev.awaitIsRecording ∈
      (startRecording ⟨true, some false, true, true, true⟩ true ⟨false, none⟩).2.1 ∧
    (Ev.awaitLocalEncoderStart ∈
        (startRecording ⟨true, some false, true, true, true⟩ true ⟨false, none⟩).2.1 →
      (startRecording ⟨true, some false, true, true, true⟩ true
          ⟨false, none⟩).2.1.indexOf Ev.awaitIsRecording <
        (startRecording ⟨true, some false, true, true, true⟩ true
          ⟨false, none⟩).2.1.indexOf Ev.awaitLocalEncoderStart) :=
  C7_query_awaited_before_local_start ⟨true, some false, true, true, true⟩ ⟨false, none⟩ rfl rfl

/-- C4: a successful stop of an active session awaits the local encoder
stop (after which the flush is complete and the chunk buffer, frame count
and start time are readable), then resets the recording-in-progress flag,
then awaits the caller's `onRecordingStop` callback with the flushed chunk
sequence and session start time, and clears the chunk buffer only after
that callback, in exactly this order; the only events before them are the
remote-stop side channel. -/
theorem C4_stop_order (env : Env) (s : RecState) (vp : VPState)
    (h : s.recordingInProgress = true) :
    (∃ remoteEvs,
      (stopRecording env s vp).2.2.1 =
        remoteEvs ++
          [Ev.awaitLocalEncoderStop, Ev.setRecordingInProgressFalse,
           Ev.awaitOnRecordingStop (vpStopRecording vp).recordedChunks
             (vpStopRecording vp).recordingStartTime,
           Ev.clearChunks] ∧
      ∀ e ∈ remoteEvs, e = Ev.setRecordingOnServerFalse ∨ e = Ev.issueRemoteStop ∨
        e = Ev.toastRemoteStopFailed) ∧
    (vpStopRecording vp).flushed = true ∧
    (vpStopRecording vp).recordedChunks = vp.recordedChunks ∧
    (vpStopRecording vp).frameCount = vp.frameCount ∧
    (vpStopRecording vp).recordingStartTime = vp.recordingStartTime ∧
    (stopRecording env s vp).2.1.recordedChunks = [] ∧
    (stopRecording env s vp).1.recordingInProgress = false ∧
    (stopRecording env s vp).2.2.2 = none := by
  refine ⟨?_, rfl, rfl, rfl, rfl, ?_, ?_, ?_⟩
  · by_cases hos : s.recordingOnServer = some true
    · by_cases hok : env.setRecordingStopOk = true
      · exact ⟨[Ev.setRecordingOnServerFalse, Ev.issueRemoteStop],
          by simp [stopRecording, h, hos, hok, vpStopRecording],
          by intro e he; fin_cases he <;> simp⟩
      · exact ⟨[Ev.setRecordingOnServerFalse, Ev.issueRemoteStop, Ev.toastRemoteStopFailed],
          by simp [stopRecording, h, hos, Bool.eq_false_iff.mpr hok, vpStopRecording],
          by intro e he; fin_cases he <;> simp⟩
    · exact ⟨[], by simp [stopRecording, h, hos, vpStopRecording],
        by intro e he; simp at he⟩
  · by_cases hos : s.recordingOnServer = some true <;> simp [stopRecording, h, hos]
  · by_cases hos : s.recordingOnServer = some true <;> simp [stopRecording, h, hos]
  · by_cases hos : s.recordingOnServer = some true <;> simp [stopRecording, h, hos]

/-- C4 witness: the stop sequence at a concrete active session. -/
theorem C4_stop_order_witness :
    (∃ remoteEvs,
      (stopRecording ⟨true, some false, true, true, true⟩ ⟨true, some true⟩
          ⟨[7, 8], 2, 5, false⟩).2.2.1 =
        remoteEvs ++
          [Ev.awaitLocalEncoderStop, Ev.setRecordingInProgressFalse,
           Ev.awaitOnRecordingStop
             (vpStopRecording ⟨[7, 8], 2, 5, false⟩).recordedChunks
             (vpStopRecording ⟨[7, 8], 2, 5, false⟩).recordingStartTime,
           Ev.clearChunks] ∧
      ∀ e ∈ remoteEvs, e = Ev.setRecordingOnServerFalse ∨ e = Ev.issueRemoteStop ∨
        e = Ev.toastRemoteStopFailed) ∧
    (vpStopRecording ⟨[7, 8], 2, 5, false⟩).flushed = true ∧
    (vpStopRecording ⟨[7, 8], 2, 5, false⟩).recordedChunks =
      (⟨[7, 8], 2, 5, false⟩ : VPState).recordedChunks ∧
    (vpStopRecording ⟨[7, 8], 2, 5, false⟩).frameCount =
      (⟨[7, 8], 2, 5, false⟩ : VPState).frameCount ∧
    (vpStopRecording ⟨[7, 8], 2, 5, false⟩).recordingStartTime =
      (⟨[7, 8], 2, 5, false⟩ : VPState).recordingStartTime ∧
    (stopRecording ⟨true, some false, true, true, true⟩ ⟨true, some true⟩
        ⟨[7, 8], 2, 5, false⟩).2.1.recordedChunks = [] ∧
    (stopRecording ⟨true, some false, true, true, true⟩ ⟨true, some true⟩
        ⟨[7, 8], 2, 5, false⟩).1.recordingInProgress = false ∧
    (stopRecording ⟨true, some false, true, true, true⟩ ⟨true, some true⟩
        ⟨[7, 8], 2, 5, false⟩).2.2.2 = none :=
  C4_stop_order ⟨true, some false, true, true, true⟩ ⟨true, some true⟩ ⟨[7, 8], 2, 5, false⟩ rfl

/-! ## Claim theorems: inference scheduling -/

/-- Unfolding of the `handleFrameProcessed` guard on a present
landmarker. -/
theorem frameGuard_eq_true (s : SchedState) (h : frameGuard (some s) = true) :
    s.initialized = true ∧ s.live = 0 ∧ s.video = 0 := by
  simpa [frameGuard, processingFrame, processingVideo, and_assoc] using h

/-- C1: the driver calls `processFrame` only when `initialized` is true,
`processingFrame` is false and `processingVideo` is false; a frame
arriving while any guard fails is dropped with no state change (and there
is no queue to enter); consequently, in every reachable state at most one
inference call is outstanding, at most one bulk-reprocessing call is
outstanding, and never one of each simultaneously. -/
theorem C1_no_overlap :
    (∀ s s2, SchedStep s Lab.frameCall s2 →
      s.initialized = true ∧ processingFrame s = false ∧ processingVideo s = false) ∧
    (∀ s s2, SchedStep s Lab.frameDrop s2 → s2 = s) ∧
    (∀ s, SchedReachable s →
      s.live ≤ 1 ∧ s.video ≤ 1 ∧ ¬(s.live ≠ 0 ∧ s.video ≠ 0)) := by
  refine ⟨?_, ?_, ?_⟩
  · intro s s2 h
    cases h with
    | frameCall hgd =>
      obtain ⟨h1, h2, h3⟩ := frameGuard_eq_true s hgd
      simp [processingFrame, processingVideo, h1, h2, h3]
  · intro s s2 h
    cases h with
    | frameDrop hgd => rfl
  · intro s hr
    induction hr with
    | start => simp [SchedState.start]
    | step s s2 l hr hs ih =>
      cases hs with
      | frameCall hgd =>
        obtain ⟨h1, h2, h3⟩ := frameGuard_eq_true s hgd
        simp [h2, h3]
      | frameDrop hgd => exact ih
      | frameDone hne =>
        obtain ⟨i1, i2, i3⟩ := ih
        exact ⟨by simp; omega, by simpa using i2, by simp; omega⟩
      | videoCall hgd =>
        obtain ⟨h1, h2, h3⟩ := frameGuard_eq_true s hgd
        simp [h2, h3]
      | videoDone hne =>
        obtain ⟨i1, i2, i3⟩ := ih
        exact ⟨by simpa using i1, by simp; omega, by simp; omega⟩
      | initDone =>
        simpa using ih

/-- C1 witness: the guard facts at a concrete call step, the no-op drop at
a concrete ineligible state, and the invariant at the initial state. -/
theorem C1_no_overlap_witness :
    ((⟨true, 0, 0⟩ : SchedState).initialized = true ∧
      processingFrame ⟨true, 0, 0⟩ = false ∧ processingVideo ⟨true, 0, 0⟩ = false) ∧
    ((⟨false, 0, 0⟩ : SchedState) = (⟨false, 0, 0⟩ : SchedState)) ∧
    (SchedState.start.live ≤ 1 ∧ SchedState.start.video ≤ 1 ∧
      ¬(SchedState.start.live ≠ 0 ∧ SchedState.start.video ≠ 0)) :=
  ⟨C1_no_overlap.1 ⟨true, 0, 0⟩ ⟨true, 1, 0⟩ (SchedStep.frameCall ⟨true, 0, 0⟩ (by decide)),
   C1_no_overlap.2.1 ⟨false, 0, 0⟩ ⟨false, 0, 0⟩ (SchedStep.frameDrop ⟨false, 0, 0⟩ (by decide)),
   C1_no_overlap.2.2 SchedState.start SchedReachable.start⟩

/-! ## Claim theorems: CameraSettings -/

/-- C8: while a numHands configuration change is in flight
(`settingNumHands` true), the caller rejects further configuration
requests: the two-hands toggle handler returns without changing the
tracked-hands state, and the configuration effect issues no `setNumHands`
call after initialization completes. -/
theorem C8_settingNumHands_guard (h : HandLandmarkerApi) (cur newVal t : Bool)
    (hflag : h.settingNumHands = true) :
    handleTrackTwoHandsChange (some h) cur newVal = cur ∧
    numHandsEffect (some h) t = none := by
  constructor
  · simp [handleTrackTwoHandsChange, hflag]
  · rcases hio : h.initOk with _ | _ <;> simp [numHandsEffect, hflag, hio]

/-- C8 witness: both guards at a concrete in-flight landmarker. -/
theorem C8_settingNumHands_guard_witness :
    handleTrackTwoHandsChange (some ⟨true, true⟩) false true = false ∧
    numHandsEffect (some ⟨true, true⟩) true = none :=
  C8_settingNumHands_guard ⟨true, true⟩ false true true rfl

/-- The capability key is absent: either there is no track, or the key is
not among the track's reported capabilities. -/
def capabilityAbsent (videoTrack : Option VideoTrack) (key : String) : Prop :=
  match videoTrack with
  | none => True
  | some t => key ∉ t.capabilities

/-- When the capability key is absent, the change handlers leave the
track untouched. -/
theorem applyAdvanced_absent (videoTrack : Option VideoTrack) (key : String) (v : Rat)
    (h : capabilityAbsent videoTrack key) :
    applyAdvanced videoTrack key v = videoTrack := by
  cases videoTrack with
  | none => rfl
  | some t => simp_all [applyAdvanced, capabilityAbsent]

/-- When the capability key is present, the change handlers apply exactly
one advanced constraint with the key and the new value. -/
theorem applyAdvanced_present (t : VideoTrack) (key : String) (v : Rat)
    (h : key ∈ t.capabilities) :
    applyAdvanced (some t) key v = some { t with applied := t.applied ++ [(key, v)] } := by
  simp [applyAdvanced, h]

/-- C10: every camera-setting change handler applies constraints to the
video track only when the corresponding capability key is present in the
track's reported capabilities; when it is absent (or there is no track),
the track is left unchanged while the local state value is still updated. -/
theorem C10_capability_guard (s : CamState) (v : Rat) :
    ((capabilityAbsent s.videoTrack CameraCapabilities.ExposureTime →
        (handleExposureTimeChange s v).videoTrack = s.videoTrack) ∧
      (∀ t, s.videoTrack = some t → CameraCapabilities.ExposureTime ∈ t.capabilities →
        (handleExposureTimeChange s v).videoTrack =
          some { t with applied := t.applied ++ [(CameraCapabilities.ExposureTime, v)] }) ∧
      (handleExposureTimeChange s v).exposureTime = v) ∧
    ((capabilityAbsent s.videoTrack CameraCapabilities.ExposureCompensation →
        (handleExposureCompensationChange s v).videoTrack = s.videoTrack) ∧
      (∀ t, s.videoTrack = some t → CameraCapabilities.ExposureCompensation ∈ t.capabilities →
        (handleExposureCompensationChange s v).videoTrack =
          some { t with applied := t.applied ++ [(CameraCapabilities.ExposureCompensation, v)] }) ∧
      (handleExposureCompensationChange s v).exposureCompensation = v) ∧
    ((capabilityAbsent s.videoTrack CameraCapabilities.FocusDistance →
        (handleFocusDistanceChange s v).videoTrack = s.videoTrack) ∧
      (∀ t, s.videoTrack = some t → CameraCapabilities.FocusDistance ∈ t.capabilities →
        (handleFocusDistanceChange s v).videoTrack =
          some { t with applied := t.applied ++ [(CameraCapabilities.FocusDistance, v)] }) ∧
      (handleFocusDistanceChange s v).focusDistance = v) ∧
    ((capabilityAbsent s.videoTrack CameraCapabilities.WhiteBalanceTemperature →
        (handleWhiteBalanceChange s v).videoTrack = s.videoTrack) ∧
      (∀ t, s.videoTrack = some t →
          CameraCapabilities.WhiteBalanceTemperature ∈ t.capabilities →
        (handleWhiteBalanceChange s v).videoTrack =
          some { t with
                 applied := t.applied ++ [(CameraCapabilities.WhiteBalanceTemperature, v)] }) ∧
      (handleWhiteBalanceChange s v).whiteBalance = v) ∧
    ((capabilityAbsent s.videoTrack CameraCapabilities.Brightness →
        (handleBrightnessChange s v).videoTrack = s.videoTrack) ∧
      (∀ t, s.videoTrack = some t → CameraCapabilities.Brightness ∈ t.capabilities →
        (handleBrightnessChange s v).videoTrack =
          some { t with applied := t.applied ++ [(CameraCapabilities.Brightness, v)] }) ∧
      (handleBrightnessChange s v).brightness = v) ∧
    ((capabilityAbsent s.videoTrack CameraCapabilities.Contrast →
        (handleContrastChange s v).videoTrack = s.videoTrack) ∧
      (∀ t, s.videoTrack = some t → CameraCapabilities.Contrast ∈ t.capabilities →
        (handleContrastChange s v).videoTrack =
          some { t with applied := t.applied ++ [(CameraCapabilities.Contrast, v)] }) ∧
      (handleContrastChange s v).contrast = v) ∧
    ((capabilityAbsent s.videoTrack CameraCapabilities.Saturation →
        (handleSaturationChange s v).videoTrack = s.videoTrack) ∧
      (∀ t, s.videoTrack = some t → CameraCapabilities.Saturation ∈ t.capabilities →
        (handleSaturationChange s v).videoTrack =
          some { t with applied := t.applied ++ [(CameraCapabilities.Saturation, v)] }) ∧
      (handleSaturationChange s v).saturation = v) ∧
    ((capabilityAbsent s.videoTrack CameraCapabilities.Sharpness →
        (handleSharpnessChange s v).videoTrack = s.videoTrack) ∧
      (∀ t, s.videoTrack = some t → CameraCapabilities.Sharpness ∈ t.capabilities →
        (handleSharpnessChange s v).videoTrack =
          some { t with applied := t.applied ++ [(CameraCapabilities.Sharpness, v)] }) ∧
      (handleSharpnessChange s v).sharpness = v) := by
  refine ⟨?_, ?_, ?_, ?_, ?_, ?_, ?_, ?_⟩ <;>
    exact ⟨fun h2 => applyAdvanced_absent _ _ _ h2,
      fun t ht hk => by
        have hp := applyAdvanced_present t _ v hk
        rw [← ht] at hp
        exact hp,
      rfl⟩

/-- C10 witness: a handler whose capability is present applies the
constraint, and a handler whose capability is absent leaves the track
unchanged while updating the state value. -/
theorem C10_capability_guard_witness :
    (capabilityAbsent
        (some (⟨[CameraCapabilities.ExposureTime], []⟩ : VideoTrack))
        CameraCapabilities.Brightness ∧
      (handleBrightnessChange
          ⟨0, 0, 0, 0, 0, 0, 0, 0, some ⟨[CameraCapabilities.ExposureTime], []⟩⟩ 5).videoTrack =
        some (⟨[CameraCapabilities.ExposureTime], []⟩ : VideoTrack) ∧
      (handleBrightnessChange
          ⟨0, 0, 0, 0, 0, 0, 0, 0, some ⟨[CameraCapabilities.ExposureTime], []⟩⟩ 5).brightness =
        5) ∧
    (CameraCapabilities.ExposureTime ∈
        (⟨[CameraCapabilities.ExposureTime], []⟩ : VideoTrack).capabilities ∧
      (handleExposureTimeChange
          ⟨0, 0, 0, 0, 0, 0, 0, 0, some ⟨[CameraCapabilities.ExposureTime], []⟩⟩ 5).videoTrack =
        some ⟨[CameraCapabilities.ExposureTime], [(CameraCapabilities.ExposureTime, 5)]⟩ ∧
      (handleExposureTimeChange
          ⟨0, 0, 0, 0, 0, 0, 0, 0, some ⟨[CameraCapabilities.ExposureTime], []⟩⟩ 5).exposureTime =
        5) :=
  ⟨⟨by simp [capabilityAbsent, CameraCapabilities.Brightness, CameraCapabilities.ExposureTime],
    (C10_capability_guard
        ⟨0, 0, 0, 0, 0, 0, 0, 0, some ⟨[CameraCapabilities.ExposureTime], []⟩⟩ 5).2.2.2.2.1.1
      (by simp [capabilityAbsent, CameraCapabilities.Brightness,
            CameraCapabilities.ExposureTime]),
    (C10_capability_guard
        ⟨0, 0, 0, 0, 0, 0, 0, 0, some ⟨[CameraCapabilities.ExposureTime], []⟩⟩ 5).2.2.2.2.1.2.2⟩,
   ⟨by simp,
    (C10_capability_guard
        ⟨0, 0, 0, 0, 0, 0, 0, 0, some ⟨[CameraCapabilities.ExposureTime], []⟩⟩ 5).1.2.1
      ⟨[CameraCapabilities.ExposureTime], []⟩ rfl (by simp),
    (C10_capability_guard
        ⟨0, 0, 0, 0, 0, 0, 0, 0, some ⟨[CameraCapabilities.ExposureTime], []⟩⟩ 5).1.2.2⟩⟩

/-- C9: for every maxFrameRate at least 30, `generateFrameRates` returns
a strictly increasing list that starts at 30, increases by at most 30 per
step, ends exactly at maxFrameRate, and contains no element greater than
maxFrameRate; for every maxFrameRate below 30 it returns the
single-element list [30], whose element exceeds maxFrameRate. -/
theorem C9_generateFrameRates (maxFrameRate : Rat) :
    (30 ≤ maxFrameRate →
      (generateFrameRates maxFrameRate).head? = some 30 ∧
      List.Chain' (fun a b => a < b ∧ b ≤ a + 30) (generateFrameRates maxFrameRate) ∧
      (generateFrameRates maxFrameRate).getLast? = some maxFrameRate ∧
      ∀ x ∈ generateFrameRates maxFrameRate, x ≤ maxFrameRate) ∧
    (maxFrameRate < 30 →
      generateFrameRates maxFrameRate = [30] ∧
      ∀ x ∈ generateFrameRates maxFrameRate, maxFrameRate < x) := by
  constructor
  · intro hge
    refine ⟨rfl, ?_, ?_, ?_⟩
    · show List.Chain (fun a b => a < b ∧ b ≤ a + 30) 30 (genLoop maxFrameRate 30)
      exact genLoop_chain maxFrameRate 30
    · rcases eq_or_lt_of_le hge with heq | hlt
      · rw [generateFrameRates, genLoop_of_not_lt _ _ (by rw [← heq]; exact lt_irrefl 30),
          ← heq]
        rfl
      · rw [generateFrameRates]
        have hne := genLoop_of_lt maxFrameRate 30 hlt
        rw [hne, List.getLast?_cons_cons, ← hne]
        exact genLoop_getLast maxFrameRate 30 hlt
    · intro x hx
      rcases List.mem_cons.mp hx with hx | hx
      · exact hx ▸ hge
      · exact genLoop_mem_le maxFrameRate 30 x hx
  · intro hlt
    have hempty := genLoop_of_not_lt maxFrameRate 30
      (fun hc => absurd (hc.trans hlt) (lt_irrefl 30))
    constructor
    · rw [generateFrameRates, hempty]
    · intro x hx
      rw [generateFrameRates, hempty] at hx
      simp only [List.mem_singleton] at hx
      rw [hx]
      exact hlt

/-- C9 witness: the frame-rate list for a maximum of 70 and for a maximum
of 20. -/
theorem C9_generateFrameRates_witness :
    ((30:Rat) ≤ 70 ∧
      ((generateFrameRates 70).head? = some 30 ∧
        List.Chain' (fun a b => a < b ∧ b ≤ a + 30) (generateFrameRates 70) ∧
        (generateFrameRates 70).getLast? = some 70 ∧
        ∀ x ∈ generateFrameRates 70, x ≤ 70)) ∧
    ((20:Rat) < 30 ∧
      (generateFrameRates 20 = [30] ∧ ∀ x ∈ generateFrameRates 20, 20 < x)) :=
  ⟨⟨by norm_num, (C9_generateFrameRates 70).1 (by norm_num)⟩,
   ⟨by norm_num, (C9_generateFrameRates 20).2 (by norm_num)⟩⟩
